import Mathlib

/-!
Verification of the ledger posting and balance maintenance logic of the
`pakarangan/keuangan` backend (`src/backend/server.py`).

The embedding below translates the data model and the route handlers that the
claims are about.  Persistent MongoDB collections are modelled as lists inside
a `DB` record; `find_one` becomes `List.find?`, `update_one` / `delete_one`
become first-match update / removal; raising `HTTPException` before any write
is modelled by returning the error together with the unchanged state.

Monetary values (`Decimal` fields of the pydantic models, and the `float`
values the handlers actually store) are modelled as exact rationals `ℚ`.  The
handlers' conversion of these values through Python binary64 floats is
modelled separately and exactly by `f64round` (round-to-nearest, ties-to-even
at 53 bits of precision), which is used to settle the numerical claims about
rounding drift.
-/

namespace Keuangan

/-- Account categories; the five valid values of `Account.category`
(server.py line 89): Aset, Utang, Pendapatan, Modal, Biaya. -/
inductive Category where
  | aset
  | utang
  | pendapatan
  | modal
  | biaya
  deriving DecidableEq, Repr

/-- Account document (server.py lines 73-80).  `id`, `user_id` model the uuid
strings; `created_at` models the datetime stamp. -/
structure Account where
  id : Nat
  user_id : Nat
  name : String
  code : Option String
  category : Category
  balance : ℚ
  created_at : Nat
  deriving DecidableEq, Repr

/-- Transaction document (server.py lines 94-103).  `date` models the
transaction date as a sortable integer. -/
structure Transaction where
  id : Nat
  user_id : Nat
  date : Int
  description : String
  amount : ℚ
  account_id : Nat
  account_name : String
  receipt_image : Option String
  created_at : Nat
  deriving DecidableEq, Repr

/-- User document (server.py lines 55-61). -/
structure User where
  id : Nat
  username : String
  email : String
  hashed_password : String
  company_name : String
  created_at : Nat
  deriving DecidableEq, Repr

/-- The three MongoDB collections used by the handlers
(`db.users`, `db.accounts`, `db.transactions`). -/
structure DB where
  users : List User
  accounts : List Account
  transactions : List Transaction
  deriving DecidableEq, Repr

/-- Error taxonomy of the handlers: 404 (`notFound`), 422 request-validation
failure (`validationError`), 400 duplicate registration (`conflict`). -/
inductive Err where
  | notFound
  | validationError
  | conflict
  deriving DecidableEq, Repr

/-- Request body of `POST /api/transactions` (server.py lines 105-110). -/
structure TransactionCreate where
  date : Int
  description : String
  amount : ℚ
  account_id : Nat
  receipt_image : Option String
  deriving DecidableEq, Repr

/-- Request body of `POST /api/auth/register` (server.py lines 63-67). -/
structure UserCreate where
  username : String
  email : String
  password : String
  company_name : String
  deriving DecidableEq, Repr

/-- Response model of `GET /api/financial-summary` (server.py lines 112-118). -/
structure FinancialSummary where
  total_aset : ℚ
  total_utang : ℚ
  total_pendapatan : ℚ
  total_modal : ℚ
  total_biaya : ℚ
  net_income : ℚ
  deriving DecidableEq, Repr

/-- Balance update rule of `create_transaction` (server.py lines 309-316) and,
with a negated `amount_change`, of `delete_transaction` (lines 377-381).  The
source tests whether the category is one of Utang, Pendapatan, Modal, but both
branches apply the same additive update `balance + amount_change`. -/
def new_balance_rule (category : Category) (balance amount_change : ℚ) : ℚ :=
  if category = Category.utang ∨ category = Category.pendapatan ∨ category = Category.modal then
    balance + amount_change
  else
    balance + amount_change

/-- Model of `db.accounts.update_one({"id": account_id}, {"$set": {"balance": b}})`
(server.py lines 318-321 and 383-386): set the balance of the first account
whose `id` matches.  Note the filter is on `id` only, not on `user_id`. -/
def update_account_balance : List Account → Nat → ℚ → List Account
  | [], _, _ => []
  | a :: rest, account_id, b =>
      if a.id = account_id then { a with balance := b } :: rest
      else a :: update_account_balance rest account_id b

/-- Model of `db.transactions.delete_one({"id": transaction_id})`
(server.py line 389): remove the first transaction whose `id` matches. -/
def delete_first_transaction : List Transaction → Nat → List Transaction
  | [], _ => []
  | t :: rest, transaction_id =>
      if t.id = transaction_id then rest else t :: delete_first_transaction rest transaction_id

/-- `POST /api/transactions` (server.py lines 290-333).  `userId` is the id of
the authenticated user, `freshId` models `uuid.uuid4()`, `now` models
`datetime.utcnow()`.  Raising `HTTPException(404)` before any write is
modelled by returning the error with the state unchanged. -/
def create_transaction (transaction_data : TransactionCreate) (userId : Nat)
    (freshId now : Nat) (db : DB) : Except Err Transaction × DB :=
  match db.accounts.find?
      (fun a => a.id == transaction_data.account_id && a.user_id == userId) with
  | none => (Except.error Err.notFound, db)
  | some account =>
      let txn : Transaction :=
        { id := freshId
          user_id := userId
          date := transaction_data.date
          description := transaction_data.description
          amount := transaction_data.amount
          account_id := transaction_data.account_id
          account_name := account.name
          receipt_image := transaction_data.receipt_image
          created_at := now }
      let db1 : DB := { db with transactions := db.transactions ++ [txn] }
      let amount_change := transaction_data.amount
      let new_balance := new_balance_rule account.category account.balance amount_change
      let db2 : DB :=
        { db1 with
          accounts := update_account_balance db1.accounts transaction_data.account_id new_balance }
      (Except.ok txn, db2)

/-- `DELETE /api/transactions/{transaction_id}` (server.py lines 368-391).
The transaction lookup is scoped to the calling user; the account lookup
(line 375) is by `id` only.  If the account no longer exists the balance step
is skipped and the transaction is deleted anyway. -/
def delete_transaction (transaction_id userId : Nat) (db : DB) : Except Err Unit × DB :=
  match db.transactions.find?
      (fun t => t.id == transaction_id && t.user_id == userId) with
  | none => (Except.error Err.notFound, db)
  | some txn =>
      let db1 : DB :=
        match db.accounts.find? (fun a => a.id == txn.account_id) with
        | none => db
        | some account =>
            let amount_change := -txn.amount
            let new_balance := new_balance_rule account.category account.balance amount_change
            { db with
              accounts := update_account_balance db.accounts txn.account_id new_balance }
      (Except.ok (),
        { db1 with transactions := delete_first_transaction db1.transactions transaction_id })

/-- Stable insertion of a transaction into a list sorted by `date` descending,
placing it after already-present transactions of equal date. -/
def insert_by_date_desc (t : Transaction) : List Transaction → List Transaction
  | [] => [t]
  | u :: rest => if u.date < t.date then t :: u :: rest else u :: insert_by_date_desc t rest

/-- Model of `.sort("date", -1)` (server.py line 273): sort by `date` descending. -/
def sort_by_date_desc (l : List Transaction) : List Transaction :=
  l.foldr insert_by_date_desc []

/-- Default of the `limit` query parameter, `Query(50, le=100)` (server.py line 264). -/
def DEFAULT_LIMIT : Int := 50

/-- `GET /api/transactions` (server.py lines 262-288).  FastAPI validates the
query parameters against `Query(50, le=100)` and `Query(0, ge=0)`: a limit
above 100 or a negative offset is rejected with a request-validation error
before the handler runs.  The handler then filters by the calling user (and
optionally by account), sorts by date descending, and paginates. -/
def get_user_transactions (limit offset : Int) (account_id : Option Nat) (userId : Nat)
    (db : DB) : Except Err (List Transaction) :=
  if 100 < limit then Except.error Err.validationError
  else if offset < 0 then Except.error Err.validationError
  else
    let base := db.transactions.filter (fun t => t.user_id == userId)
    let filtered :=
      match account_id with
      | some aid => base.filter (fun t => t.account_id == aid)
      | none => base
    Except.ok (((sort_by_date_desc filtered).drop offset.toNat).take limit.toNat)

/-- Folding step of `GET /api/financial-summary` (server.py lines 347-360):
add one account's balance to the total of its category. -/
def add_to_summary (s : FinancialSummary) (a : Account) : FinancialSummary :=
  match a.category with
  | Category.aset => { s with total_aset := s.total_aset + a.balance }
  | Category.utang => { s with total_utang := s.total_utang + a.balance }
  | Category.pendapatan => { s with total_pendapatan := s.total_pendapatan + a.balance }
  | Category.modal => { s with total_modal := s.total_modal + a.balance }
  | Category.biaya => { s with total_biaya := s.total_biaya + a.balance }

/-- `GET /api/financial-summary` (server.py lines 335-366): load the calling
user's accounts, sum balances grouped by category starting from zero totals,
then set `net_income = total_pendapatan - total_biaya`. -/
def get_financial_summary (userId : Nat) (db : DB) : FinancialSummary :=
  let accounts := db.accounts.filter (fun a => a.user_id == userId)
  let s := accounts.foldl add_to_summary
    { total_aset := 0, total_utang := 0, total_pendapatan := 0, total_modal := 0,
      total_biaya := 0, net_income := 0 }
  { s with net_income := s.total_pendapatan - s.total_biaya }

/-- The six default accounts seeded at registration (server.py lines 178-185),
as (name, category, code) triples. -/
def default_accounts : List (String × Category × String) :=
  [("Kas", Category.aset, "1001"),
   ("Bank", Category.aset, "1002"),
   ("Hutang Usaha", Category.utang, "2001"),
   ("Penjualan", Category.pendapatan, "4001"),
   ("Modal Pribadi", Category.modal, "3001"),
   ("Biaya Operasional", Category.biaya, "5001")]

/-- `POST /api/auth/register` (server.py lines 154-202).  `hashFn` models the
opaque password hashing provider, `uid` models the fresh user uuid,
`accountIds` gives the fresh uuid of the i-th default account, `now` models
`datetime.utcnow()`.  The duplicate check runs before any insert; on conflict
the handler raises with the state unchanged. -/
def register_user (user_data : UserCreate) (hashFn : String → String)
    (uid : Nat) (accountIds : Nat → Nat) (now : Nat) (db : DB) : Except Err Nat × DB :=
  match db.users.find?
      (fun u => u.username == user_data.username || u.email == user_data.email) with
  | some _ => (Except.error Err.conflict, db)
  | none =>
      let user : User :=
        { id := uid
          username := user_data.username
          email := user_data.email
          hashed_password := hashFn user_data.password
          company_name := user_data.company_name
          created_at := now }
      let db1 : DB := { db with users := db.users ++ [user] }
      let newAccounts : List Account := default_accounts.enum.map (fun p =>
        { id := accountIds p.1
          user_id := uid
          name := p.2.1
          code := some p.2.2.2
          category := p.2.2.1
          balance := 0
          created_at := now })
      (Except.ok uid, { db1 with accounts := db1.accounts ++ newAccounts })

/-- Per-category totals of the profit/loss reports (server.py lines 414-426
for the PDF route and, identically, lines 489-501 for the Excel route). -/
structure ReportTotals where
  pendapatan : ℚ
  biaya : ℚ
  aset : ℚ
  utang : ℚ
  modal : ℚ
  deriving DecidableEq, Repr

/-- Folding step of the report-totals loop (server.py lines 422-426 and
497-501): every account category is one of the five keys of the dict. -/
def add_to_totals (t : ReportTotals) (a : Account) : ReportTotals :=
  match a.category with
  | Category.pendapatan => { t with pendapatan := t.pendapatan + a.balance }
  | Category.biaya => { t with biaya := t.biaya + a.balance }
  | Category.aset => { t with aset := t.aset + a.balance }
  | Category.utang => { t with utang := t.utang + a.balance }
  | Category.modal => { t with modal := t.modal + a.balance }

/-- The computed content of a profit/loss report, before it is handed to the
out-of-scope PDF/Excel renderer: the period label built from the date-range
query parameters, the per-category totals, and LABA BERSIH. -/
structure ProfitLossReport where
  period_label : String
  totals : ReportTotals
  laba_bersih : ℚ
  deriving DecidableEq, Repr

/-- Computation of `GET /api/reports/profit-loss/pdf` and `/excel`
(server.py lines 394-449 and 476-535): the date-range parameters appear only
in the period label; the totals are summed from the calling user's current
account balances, and LABA BERSIH is Pendapatan minus Biaya. -/
def generate_profit_loss (start_date end_date : String) (userId : Nat) (db : DB) :
    ProfitLossReport :=
  let accounts := db.accounts.filter (fun a => a.user_id == userId)
  let totals := accounts.foldl add_to_totals
    { pendapatan := 0, biaya := 0, aset := 0, utang := 0, modal := 0 }
  { period_label := "Periode: " ++ start_date ++ " s/d " ++ end_date
    totals := totals
    laba_bersih := totals.pendapatan - totals.biaya }

/-- The computed content of a balance-sheet report (server.py lines 550-632):
the report-date label and the Aset / Utang / Modal totals. -/
structure BalanceSheetReport where
  report_label : String
  total_assets : ℚ
  total_liabilities : ℚ
  total_equity : ℚ
  deriving DecidableEq, Repr

/-- Computation of `GET /api/reports/balance-sheet/pdf` (server.py lines
550-632): the `report_date` parameter appears only in the label; the totals
sum the calling user's current balances in the Aset, Utang and Modal
categories (lines 591-614). -/
def generate_balance_sheet (report_date : String) (userId : Nat) (db : DB) :
    BalanceSheetReport :=
  let accounts := db.accounts.filter (fun a => a.user_id == userId)
  { report_label := "Per " ++ report_date
    total_assets :=
      ((accounts.filter (fun a => a.category == Category.aset)).map Account.balance).sum
    total_liabilities :=
      ((accounts.filter (fun a => a.category == Category.utang)).map Account.balance).sum
    total_equity :=
      ((accounts.filter (fun a => a.category == Category.modal)).map Account.balance).sum }

/-- Sum of the balances of a user's accounts in one category: the value the
spec says every summary total must equal. -/
def sum_balances (userId : Nat) (c : Category) (db : DB) : ℚ :=
  ((db.accounts.filter (fun a => a.user_id == userId && a.category == c)).map
    Account.balance).sum

/-- Round a rational to an integer, ties to even: the rounding used by IEEE-754
binary64 arithmetic. -/
def roundHalfEven (q : ℚ) : ℤ :=
  let f := ⌊q⌋
  let r := q - (f : ℚ)
  if r < 1/2 then f
  else if 1/2 < r then f + 1
  else if 2 ∣ f then f else f + 1

/-- The value of the IEEE-754 binary64 number nearest to `q` (round to
nearest, ties to even), as an exact rational: 53 significant bits, exponent
clamped below at the subnormal range (so values under the least subnormal
round to 0).  Overflow to infinity is not modelled; all inputs considered
here are far below the overflow threshold.  This is the semantics of the
`float(...)` conversions and float additions in server.py lines 303, 310-316
and 377-381. -/
def f64round (q : ℚ) : ℚ :=
  if q = 0 then 0
  else
    let x := |q|
    let e : ℤ := max (Int.log 2 x) (-1022)
    let ulp : ℚ := 2 ^ (e - 52)
    let m : ℤ := roundHalfEven (x / ulp)
    if q < 0 then -((m : ℚ) * ulp) else (m : ℚ) * ulp

/-- Balance produced by posting, at float precision (server.py lines 303,
310-316): the request's Decimal amount is converted to a binary64 float and
added, in float arithmetic, to the stored balance (itself a binary64 value). -/
def post_balance_float (balance amount : ℚ) : ℚ :=
  f64round (balance + f64round amount)

/-- Balance produced by deleting a transaction, at float precision (server.py
lines 377-381): the stored float amount is negated and added, in float
arithmetic, to the stored balance. -/
def delete_balance_float (balance stored_amount : ℚ) : ℚ :=
  f64round (balance + -stored_amount)

/-- Sample account of user 1 used to instantiate theorems: the seeded Kas
account with balance 0. -/
def kasAccount : Account :=
  { id := 11, user_id := 1, name := "Kas", code := some "1001",
    category := Category.aset, balance := 0, created_at := 0 }

/-- Sample account of user 2 (a second, unrelated user). -/
def kasAccountB : Account :=
  { id := 21, user_id := 2, name := "Kas", code := some "1001",
    category := Category.aset, balance := 7, created_at := 0 }

/-- Sample transaction of user 1 against `kasAccount`. -/
def sampleTxn : Transaction :=
  { id := 101, user_id := 1, date := 5, description := "Penjualan",
    amount := 250000, account_id := 11, account_name := "Kas",
    receipt_image := none, created_at := 0 }

/-- Sample transaction of user 2 against `kasAccountB`. -/
def sampleTxnB : Transaction :=
  { id := 201, user_id := 2, date := 3, description := "Penjualan",
    amount := 7, account_id := 21, account_name := "Kas",
    receipt_image := none, created_at := 0 }

/-- Sample user record. -/
def sampleUser : User :=
  { id := 1, username := "ahmad", email := "ahmad@toko.id",
    hashed_password := "h", company_name := "Toko Ahmad", created_at := 0 }

/-- Sample database with two users, one account and one transaction each. -/
def sampleDb : DB :=
  { users := [sampleUser]
    accounts := [kasAccount, kasAccountB]
    transactions := [sampleTxn, sampleTxnB] }

/-- Sample request body posting 250000 against `kasAccount`. -/
def sampleCreate : TransactionCreate :=
  { date := 5, description := "Penjualan", amount := 250000,
    account_id := 11, receipt_image := none }

/-- Sample request body naming user 2's account id 21, used to show that
user 1 cannot post against it. -/
def sampleCreateB : TransactionCreate :=
  { date := 5, description := "Penjualan", amount := 9,
    account_id := 21, receipt_image := none }

/-- Registration request whose username collides with `sampleUser`. -/
def sampleRegister : UserCreate :=
  { username := "ahmad", email := "lain@toko.id", password := "p",
    company_name := "Toko Lain" }

/-- Registration request with a fresh username and email. -/
def freshRegister : UserCreate :=
  { username := "budi", email := "budi@toko.id", password := "p",
    company_name := "Toko Budi" }

/-- Fresh-id generator for the default accounts of a registration. -/
def idFun : Nat → Nat := fun i => 400 + i

/-- Accessor for the five category totals of a summary. -/
def summary_total (c : Category) (s : FinancialSummary) : ℚ :=
  match c with
  | Category.aset => s.total_aset
  | Category.utang => s.total_utang
  | Category.pendapatan => s.total_pendapatan
  | Category.modal => s.total_modal
  | Category.biaya => s.total_biaya

/-- Accessor for the five category totals of a report. -/
def report_total (c : Category) (t : ReportTotals) : ℚ :=
  match c with
  | Category.aset => t.aset
  | Category.utang => t.utang
  | Category.pendapatan => t.pendapatan
  | Category.modal => t.modal
  | Category.biaya => t.biaya

/-- Evaluation rule for `Int.log 2` at a concrete positive rational, from the
two bounding powers of two. -/
lemma int_log_eval {x : ℚ} {e : ℤ} (hx : 0 < x)
    (h1 : (2:ℚ) ^ e ≤ x) (h2 : x < (2:ℚ) ^ (e + 1)) :
    Int.log 2 x = e := by
  have hb : (1:ℕ) < 2 := by norm_num
  have h1' : ((2:ℕ):ℚ) ^ e ≤ x := by exact_mod_cast h1
  have h2' : x < ((2:ℕ):ℚ) ^ (e + 1) := by exact_mod_cast h2
  refine le_antisymm ?_ ?_
  · exact Int.lt_add_one_iff.mp ((Int.lt_zpow_iff_log_lt hb hx).mp h2')
  · exact (Int.zpow_le_iff_le_log hb hx).mp h1'

/-- Evaluation rule for `f64round` at a concrete positive rational in the
normal range, given its binade and the rounded mantissa value. -/
lemma f64round_pos {q v : ℚ} {e : ℤ} (hq : 0 < q) (he : -1022 ≤ e)
    (h1 : (2:ℚ) ^ e ≤ q) (h2 : q < (2:ℚ) ^ (e + 1))
    (hv : (roundHalfEven (q / 2 ^ (e - 52)) : ℚ) * 2 ^ (e - 52) = v) :
    f64round q = v := by
  have hq0 : ¬ q = 0 := hq.ne'
  have hlt : ¬ q < 0 := not_lt.mpr hq.le
  simp only [f64round, if_neg hq0, abs_of_pos hq, int_log_eval hq h1 h2,
    max_eq_left he, if_neg hlt]
  exact hv

/-- The binary64 value nearest 0.1. -/
lemma f64round_tenth : f64round (1/10) = 3602879701896397 / 36028797018963968 := by
  refine f64round_pos (e := -4) (by norm_num) (by norm_num) (by norm_num) (by norm_num) ?_
  norm_num [roundHalfEven]

/-- The binary64 value nearest 0.2. -/
lemma f64round_fifth : f64round (2/10) = 3602879701896397 / 18014398509481984 := by
  refine f64round_pos (e := -3) (by norm_num) (by norm_num) (by norm_num) (by norm_num) ?_
  norm_num [roundHalfEven]

/-- Rounding the exact sum of the doubles nearest 0.1 and 0.2: the tie is
broken to the even mantissa, giving the double 0.30000000000000004. -/
lemma f64round_sum_tenth_fifth :
    f64round (10808639105689191 / 36028797018963968) = 1351079888211149 / 4503599627370496 := by
  refine f64round_pos (e := -2) (by norm_num) (by norm_num) (by norm_num) (by norm_num) ?_
  norm_num [roundHalfEven]

/-- The double nearest 0.1 is already a binary64 value, so it rounds to itself. -/
lemma f64round_d01 :
    f64round (3602879701896397 / 36028797018963968) = 3602879701896397 / 36028797018963968 := by
  refine f64round_pos (e := -4) (by norm_num) (by norm_num) (by norm_num) (by norm_num) ?_
  norm_num [roundHalfEven]

/-- The double nearest 0.2 is already a binary64 value, so it rounds to itself. -/
lemma f64round_d02 :
    f64round (3602879701896397 / 18014398509481984) = 3602879701896397 / 18014398509481984 := by
  refine f64round_pos (e := -3) (by norm_num) (by norm_num) (by norm_num) (by norm_num) ?_
  norm_num [roundHalfEven]

/-- The exact difference 0.30000000000000004 - 0.2 (as doubles) is itself a
binary64 value, so the reversal step introduces no further rounding — yet it
already differs from the original 0.1. -/
lemma f64round_diff :
    f64round (1801439850948199 / 18014398509481984) = 1801439850948199 / 18014398509481984 := by
  refine f64round_pos (e := -4) (by norm_num) (by norm_num) (by norm_num) (by norm_num) ?_
  norm_num [roundHalfEven]

/-- C2: posting amount 0.2 against an account whose stored balance is the
binary64 value nearest 0.1, then deleting that same transaction, does not
restore the balance: the float arithmetic of server.py lines 303/310-321 and
377-386 returns the double 0.10000000000000003 instead of the original
balance, refuting the claimed decimal-exact round trip. -/
theorem C2_roundtrip_drift :
    delete_balance_float
        (post_balance_float (f64round (1/10)) (2/10))
        (f64round (2/10))
      ≠ f64round (1/10) := by
  rw [post_balance_float, delete_balance_float, f64round_tenth, f64round_fifth]
  have h1 : (3602879701896397 / 36028797018963968 : ℚ) + 3602879701896397 / 18014398509481984
      = 10808639105689191 / 36028797018963968 := by norm_num
  rw [h1, f64round_sum_tenth_fifth]
  have h2 : (1351079888211149 / 4503599627370496 : ℚ) + -(3602879701896397 / 18014398509481984)
      = 1801439850948199 / 18014398509481984 := by norm_num
  rw [h2, f64round_diff]
  norm_num

/-- C4: the balance arithmetic of the posting pipeline is binary floating
point, not exact decimal arithmetic: posting 0.1 three times to an account
starting at 0 leaves the stored balance at the double 0.30000000000000004,
not at 3/10, so repeated summation does drift. -/
theorem C4_float_drift :
    post_balance_float (post_balance_float (post_balance_float 0 (1/10)) (1/10)) (1/10)
      ≠ 3/10 := by
  rw [post_balance_float, post_balance_float, post_balance_float, f64round_tenth]
  rw [zero_add, f64round_d01]
  have h1 : (3602879701896397 / 36028797018963968 : ℚ) + 3602879701896397 / 36028797018963968
      = 3602879701896397 / 18014398509481984 := by norm_num
  rw [h1, f64round_d02]
  have h2 : (3602879701896397 / 18014398509481984 : ℚ) + 3602879701896397 / 36028797018963968
      = 10808639105689191 / 36028797018963968 := by norm_num
  rw [h2, f64round_sum_tenth_fifth]
  norm_num

/-- Both branches of the category test compute the same additive update. -/
lemma new_balance_rule_eq (c : Category) (b a : ℚ) : new_balance_rule c b a = b + a := by
  simp [new_balance_rule]

/-- Updating the balance of the account with a given id, when account ids are
unique, makes the (first) account found under that id the updated one. -/
lemma find?_update_account {l : List Account} {account_id : Nat} {acc : Account} (v : ℚ)
    (hN : (l.map Account.id).Nodup) (hmem : acc ∈ l) (hid : acc.id = account_id) :
    (update_account_balance l account_id v).find? (fun a => a.id == account_id)
      = some { acc with balance := v } := by
  induction l with
  | nil => cases hmem
  | cons h t ih =>
    rw [List.map_cons, List.nodup_cons] at hN
    rcases List.mem_cons.mp hmem with rfl | hmt
    · rw [update_account_balance, if_pos hid]
      exact List.find?_cons_of_pos _ (by simp [hid])
    · by_cases hh : h.id = account_id
      · exact absurd (by rw [hh, ← hid]; exact List.mem_map_of_mem _ hmt) hN.1
      · rw [update_account_balance, if_neg hh, List.find?_cons_of_neg _ (by simp [hh])]
        exact ih hN.2 hmt

/-- C1: posting a transaction sets the persisted balance of the target account
to its previous balance plus the posted amount, and the balance-update rule is
the same additive `balance + amount` for every account category — no category
receives a different sign (server.py lines 309-321). -/
theorem C1_post_additive_all_categories (db : DB) (td : TransactionCreate)
    (userId freshId now : Nat) (acc : Account)
    (hN : (db.accounts.map Account.id).Nodup)
    (hf : db.accounts.find? (fun a => a.id == td.account_id && a.user_id == userId)
        = some acc) :
    (∀ c b a, new_balance_rule c b a = b + a) ∧
    ((create_transaction td userId freshId now db).2.accounts.find?
        (fun a => a.id == td.account_id)
      = some { acc with balance := acc.balance + td.amount }) := by
  refine ⟨new_balance_rule_eq, ?_⟩
  have hmem := List.mem_of_find?_eq_some hf
  have hp := List.find?_some hf
  simp only [Bool.and_eq_true, beq_iff_eq] at hp
  simp only [create_transaction, hf, new_balance_rule_eq]
  exact find?_update_account _ hN hmem hp.1

/-- C5: posting against an account id that does not resolve to an account of
the calling user — whether because no such account exists or because it is
owned by someone else — fails with the same NotFound error before any write,
leaving the state unchanged (server.py lines 291-295). -/
theorem C5_post_not_found (db : DB) (td : TransactionCreate) (userId freshId now : Nat)
    (h : ∀ a ∈ db.accounts, a.id = td.account_id → ¬ a.user_id = userId) :
    create_transaction td userId freshId now db = (Except.error Err.notFound, db) := by
  have hnone : db.accounts.find? (fun a => a.id == td.account_id && a.user_id == userId)
      = none := by
    rw [List.find?_eq_none]
    intro a ha
    simp only [Bool.and_eq_true, beq_iff_eq, not_and]
    exact h a ha
  simp [create_transaction, hnone]

/-- One folding step adds the balance exactly to the total of the account's
own category and leaves the other totals unchanged. -/
lemma summary_total_add (c : Category) (s : FinancialSummary) (a : Account) :
    summary_total c (add_to_summary s a)
      = if a.category = c then summary_total c s + a.balance else summary_total c s := by
  rcases hc : a.category <;> cases c <;>
    simp [add_to_summary, summary_total, hc]

/-- Folding the summary over a user's accounts accumulates, in every category,
exactly the sum of that user's balances in the category. -/
lemma foldl_summary_total (c : Category) (uid : Nat) (l : List Account)
    (s : FinancialSummary) :
    summary_total c ((l.filter (fun a => a.user_id == uid)).foldl add_to_summary s)
      = summary_total c s
        + ((l.filter (fun a => a.user_id == uid && a.category == c)).map
            Account.balance).sum := by
  induction l generalizing s with
  | nil => simp
  | cons h t ih =>
    by_cases hu : h.user_id = uid
    · by_cases hc : h.category = c
      · simp only [List.filter_cons, hu, hc, beq_self_eq_true, Bool.and_self,
          if_pos, List.foldl_cons, List.map_cons, List.sum_cons]
        rw [ih, summary_total_add, if_pos hc]
        ring
      · have hb : (h.category == c) = false := by simp [hc]
        simp only [List.filter_cons, hu, beq_self_eq_true, hb, Bool.and_false,
          if_pos, Bool.false_eq_true, if_false, List.foldl_cons]
        rw [ih, summary_total_add, if_neg hc]
    · have hb : (h.user_id == uid) = false := by simp [hu]
      simp only [List.filter_cons, hb, Bool.false_and, Bool.false_eq_true, if_false]
      exact ih s

/-- Every total of the financial summary is the sum of the user's balances in
that category. -/
lemma get_financial_summary_total (c : Category) (userId : Nat) (db : DB) :
    summary_total c (get_financial_summary userId db) = sum_balances userId c db := by
  have hnet : ∀ (s : FinancialSummary) (x : ℚ),
      summary_total c { s with net_income := x } = summary_total c s := by
    intro s x; cases c <;> rfl
  unfold get_financial_summary sum_balances
  rw [hnet, foldl_summary_total]
  have hzero : summary_total c
      { total_aset := 0, total_utang := 0, total_pendapatan := 0, total_modal := 0,
        total_biaya := 0, net_income := 0 } = 0 := by
    cases c <;> rfl
  rw [hzero, zero_add]

/-- C3: the financial summary returns, for each of the five categories,
exactly the sum of the balances of the calling user's accounts in that
category (an empty category sums to 0), and net income is total Pendapatan
minus total Biaya (server.py lines 335-366). -/
theorem C3_summary_is_category_sums (userId : Nat) (db : DB) :
    (get_financial_summary userId db).total_aset = sum_balances userId Category.aset db ∧
    (get_financial_summary userId db).total_utang = sum_balances userId Category.utang db ∧
    (get_financial_summary userId db).total_pendapatan
        = sum_balances userId Category.pendapatan db ∧
    (get_financial_summary userId db).total_modal = sum_balances userId Category.modal db ∧
    (get_financial_summary userId db).total_biaya = sum_balances userId Category.biaya db ∧
    (get_financial_summary userId db).net_income
        = (get_financial_summary userId db).total_pendapatan
          - (get_financial_summary userId db).total_biaya := by
  refine ⟨get_financial_summary_total Category.aset userId db,
    get_financial_summary_total Category.utang userId db,
    get_financial_summary_total Category.pendapatan userId db,
    get_financial_summary_total Category.modal userId db,
    get_financial_summary_total Category.biaya userId db, rfl⟩

/-- With unique transaction ids, removing the first match of an id removes
exactly the transactions carrying that id. -/
lemma delete_first_eq_filter {l : List Transaction} (tid : Nat)
    (hN : (l.map Transaction.id).Nodup) :
    delete_first_transaction l tid = l.filter (fun t => !(t.id == tid)) := by
  induction l with
  | nil => rfl
  | cons h t ih =>
    rw [List.map_cons, List.nodup_cons] at hN
    by_cases hh : h.id = tid
    · rw [delete_first_transaction, if_pos hh, List.filter_cons,
        if_neg (by simp [hh])]
      refine (List.filter_eq_self.mpr ?_).symm
      intro x hx
      simp only [Bool.not_eq_true', beq_eq_false_iff_ne, ne_eq]
      intro hxid
      refine hN.1 ?_
      have hxh : h.id = x.id := by rw [hh, hxid]
      rw [hxh]
      exact List.mem_map_of_mem _ hx
    · rw [delete_first_transaction, if_neg hh, List.filter_cons, if_pos (by simp [hh])]
      rw [ih hN.2]

/-- The transactions left by a delete never contain the deleted id, so a
repeated lookup of that id fails. -/
lemma find?_filter_ne_id (l : List Transaction) (tid userId : Nat) :
    (l.filter (fun t => !(t.id == tid))).find?
        (fun t => t.id == tid && t.user_id == userId) = none := by
  rw [List.find?_eq_none]
  intro t ht
  have := (List.mem_filter.mp ht).2
  simp only [Bool.not_eq_true', beq_eq_false_iff_ne, ne_eq] at this
  simp [this]

/-- C6: deleting an owned transaction subtracts its amount from the referenced
account's balance when that account still exists, silently leaves the accounts
untouched when it no longer exists, removes the transaction record in both
cases, and a second delete of the same id fails with NotFound without touching
the state again, so the balance is never reversed twice
(server.py lines 368-391). -/
theorem C6_delete_semantics (db : DB) (tid userId : Nat) (t : Transaction)
    (hNa : (db.accounts.map Account.id).Nodup)
    (hNt : (db.transactions.map Transaction.id).Nodup)
    (hf : db.transactions.find? (fun x => x.id == tid && x.user_id == userId) = some t) :
    (delete_transaction tid userId db).1 = Except.ok () ∧
    (delete_transaction tid userId db).2.transactions
        = db.transactions.filter (fun x => !(x.id == tid)) ∧
    (∀ acc, db.accounts.find? (fun a => a.id == t.account_id) = some acc →
        (delete_transaction tid userId db).2.accounts.find?
            (fun a => a.id == t.account_id)
          = some { acc with balance := acc.balance - t.amount }) ∧
    (db.accounts.find? (fun a => a.id == t.account_id) = none →
        (delete_transaction tid userId db).2.accounts = db.accounts) ∧
    delete_transaction tid userId (delete_transaction tid userId db).2
        = (Except.error Err.notFound, (delete_transaction tid userId db).2) := by
  have htrans : (delete_transaction tid userId db).2.transactions
      = db.transactions.filter (fun x => !(x.id == tid)) := by
    rcases hacc : db.accounts.find? (fun a => a.id == t.account_id) with _ | acc <;>
      simp [delete_transaction, hf, hacc, delete_first_eq_filter tid hNt]
  refine ⟨?_, htrans, ?_, ?_, ?_⟩
  · rcases hacc : db.accounts.find? (fun a => a.id == t.account_id) with _ | acc <;>
      simp [delete_transaction, hf, hacc]
  · intro acc hacc
    have hmem := List.mem_of_find?_eq_some hacc
    have hid : acc.id = t.account_id := by
      have := List.find?_some hacc; simpa using this
    simp only [delete_transaction, hf, hacc, new_balance_rule_eq]
    rw [show acc.balance + -t.amount = acc.balance - t.amount by ring]
    exact find?_update_account _ hNa hmem hid
  · intro hacc
    simp [delete_transaction, hf, hacc]
  · have hnone := find?_filter_ne_id db.transactions tid userId
    rw [delete_transaction.eq_def]
    rw [htrans, hnone]

/-- C7 counterexample: a list request with limit 101 is not clamped to 100 —
FastAPI's `Query(50, le=100)` (server.py line 264) rejects it as a request
validation error, so the call returns no transaction page at all. -/
theorem C7_counterexample :
    get_user_transactions 101 0 none 1 sampleDb = Except.error Err.validationError := by
  rfl

/-- C7 (amended): a requested limit above 100 or a negative offset is rejected
as a ValidationError (nothing is clamped); within bounds the call succeeds and
returns at most `limit` transactions; the default limit is 50
(server.py lines 262-273). -/
theorem C7_pagination_validation (limit offset : Int) (account_id : Option Nat)
    (userId : Nat) (db : DB) :
    ((100 < limit ∨ offset < 0) →
        get_user_transactions limit offset account_id userId db
          = Except.error Err.validationError) ∧
    (limit ≤ 100 → 0 ≤ offset →
        ∃ l, get_user_transactions limit offset account_id userId db = Except.ok l ∧
          l.length ≤ limit.toNat) ∧
    DEFAULT_LIMIT = 50 := by
  refine ⟨?_, ?_, rfl⟩
  · rintro (hl | ho)
    · simp [get_user_transactions, hl]
    · rcases lt_or_le 100 limit with hl | hl
      · simp [get_user_transactions, hl]
      · simp [get_user_transactions, not_lt.mpr hl, ho]
  · intro hl ho
    have h1 : ¬ 100 < limit := not_lt.mpr hl
    have h2 : ¬ offset < 0 := not_lt.mpr ho
    simp only [get_user_transactions, if_neg h1, if_neg h2]
    exact ⟨_, rfl, List.length_take_le _ _⟩

/-- One report-folding step adds the balance exactly to the total of the
account's own category. -/
lemma report_total_add (c : Category) (s : ReportTotals) (a : Account) :
    report_total c (add_to_totals s a)
      = if a.category = c then report_total c s + a.balance else report_total c s := by
  rcases hc : a.category <;> cases c <;>
    simp [add_to_totals, report_total, hc]

/-- Folding the report totals over a user's accounts accumulates, in every
category, exactly the sum of that user's balances in the category. -/
lemma foldl_report_total (c : Category) (uid : Nat) (l : List Account) (s : ReportTotals) :
    report_total c ((l.filter (fun a => a.user_id == uid)).foldl add_to_totals s)
      = report_total c s
        + ((l.filter (fun a => a.user_id == uid && a.category == c)).map
            Account.balance).sum := by
  induction l generalizing s with
  | nil => simp
  | cons h t ih =>
    by_cases hu : h.user_id = uid
    · by_cases hc : h.category = c
      · simp only [List.filter_cons, hu, hc, beq_self_eq_true, Bool.and_self,
          if_pos, List.foldl_cons, List.map_cons, List.sum_cons]
        rw [ih, report_total_add, if_pos hc]
        ring
      · have hb : (h.category == c) = false := by simp [hc]
        simp only [List.filter_cons, hu, beq_self_eq_true, hb, Bool.and_false,
          if_pos, Bool.false_eq_true, if_false, List.foldl_cons]
        rw [ih, report_total_add, if_neg hc]
    · have hb : (h.user_id == uid) = false := by simp [hu]
      simp only [List.filter_cons, hb, Bool.false_and, Bool.false_eq_true, if_false]
      exact ih s

/-- Every total of the profit/loss report is the sum of the user's balances in
that category, independent of the requested date range. -/
lemma generate_profit_loss_total (c : Category) (sd ed : String) (userId : Nat) (db : DB) :
    report_total c (generate_profit_loss sd ed userId db).totals
      = sum_balances userId c db := by
  have h : (generate_profit_loss sd ed userId db).totals
      = (db.accounts.filter (fun a => a.user_id == userId)).foldl add_to_totals
          { pendapatan := 0, biaya := 0, aset := 0, utang := 0, modal := 0 } := rfl
  rw [h, foldl_report_total]
  have hzero : report_total c
      { pendapatan := 0, biaya := 0, aset := 0, utang := 0, modal := (0:ℚ) } = 0 := by
    cases c <;> rfl
  rw [hzero, zero_add]
  rfl

/-- Filtering by owner and then by category is the single combined filter. -/
lemma filter_user_cat (uid : Nat) (c : Category) (l : List Account) :
    (l.filter (fun a => a.user_id == uid)).filter (fun a => a.category == c)
      = l.filter (fun a => a.user_id == uid && a.category == c) := by
  induction l with
  | nil => rfl
  | cons h t ih =>
    by_cases hu : h.user_id = uid <;> by_cases hc : h.category = c <;>
      simp [List.filter_cons, hu, hc, ih]

/-- C9: the per-category totals of the profit/loss report (PDF and Excel
compute the same dict) and of the balance-sheet report equal the corresponding
totals of the financial summary, the report's bottom line equals the summary's
net income, and the supplied date-range parameters have no effect on any
computed total — balances are always current (server.py lines 411-426,
487-501, 562-614). -/
theorem C9_reports_match_summary (userId : Nat) (db : DB)
    (sd ed sd2 ed2 rd rd2 : String) :
    ((generate_profit_loss sd ed userId db).totals.aset
        = (get_financial_summary userId db).total_aset ∧
      (generate_profit_loss sd ed userId db).totals.utang
        = (get_financial_summary userId db).total_utang ∧
      (generate_profit_loss sd ed userId db).totals.pendapatan
        = (get_financial_summary userId db).total_pendapatan ∧
      (generate_profit_loss sd ed userId db).totals.modal
        = (get_financial_summary userId db).total_modal ∧
      (generate_profit_loss sd ed userId db).totals.biaya
        = (get_financial_summary userId db).total_biaya ∧
      (generate_profit_loss sd ed userId db).laba_bersih
        = (get_financial_summary userId db).net_income) ∧
    ((generate_balance_sheet rd userId db).total_assets
        = (get_financial_summary userId db).total_aset ∧
      (generate_balance_sheet rd userId db).total_liabilities
        = (get_financial_summary userId db).total_utang ∧
      (generate_balance_sheet rd userId db).total_equity
        = (get_financial_summary userId db).total_modal) ∧
    ((generate_profit_loss sd ed userId db).totals
        = (generate_profit_loss sd2 ed2 userId db).totals ∧
      (generate_profit_loss sd ed userId db).laba_bersih
        = (generate_profit_loss sd2 ed2 userId db).laba_bersih ∧
      (generate_balance_sheet rd userId db).total_assets
        = (generate_balance_sheet rd2 userId db).total_assets ∧
      (generate_balance_sheet rd userId db).total_liabilities
        = (generate_balance_sheet rd2 userId db).total_liabilities ∧
      (generate_balance_sheet rd userId db).total_equity
        = (generate_balance_sheet rd2 userId db).total_equity) := by
  have hpl : ∀ c, report_total c (generate_profit_loss sd ed userId db).totals
      = summary_total c (get_financial_summary userId db) := by
    intro c
    rw [generate_profit_loss_total, get_financial_summary_total]
  have hbs : ∀ c : Category,
      (((db.accounts.filter (fun a => a.user_id == userId)).filter
          (fun a => a.category == c)).map Account.balance).sum
        = summary_total c (get_financial_summary userId db) := by
    intro c
    rw [filter_user_cat, get_financial_summary_total]
    rfl
  refine ⟨⟨hpl Category.aset, hpl Category.utang, hpl Category.pendapatan,
    hpl Category.modal, hpl Category.biaya, ?_⟩,
    ⟨hbs Category.aset, hbs Category.utang, hbs Category.modal⟩,
    rfl, rfl, rfl, rfl, rfl⟩
  have h1 : (generate_profit_loss sd ed userId db).laba_bersih
      = (generate_profit_loss sd ed userId db).totals.pendapatan
        - (generate_profit_loss sd ed userId db).totals.biaya := rfl
  have h2 : (get_financial_summary userId db).net_income
      = (get_financial_summary userId db).total_pendapatan
        - (get_financial_summary userId db).total_biaya := rfl
  rw [h1, h2,
    show (generate_profit_loss sd ed userId db).totals.pendapatan
        = report_total Category.pendapatan (generate_profit_loss sd ed userId db).totals
      from rfl,
    show (generate_profit_loss sd ed userId db).totals.biaya
        = report_total Category.biaya (generate_profit_loss sd ed userId db).totals
      from rfl,
    hpl Category.pendapatan, hpl Category.biaya]
  rfl

/-- C10: registration is atomic on conflict — when a user with the same
username or email already exists it fails with Conflict before any write, so
the state is unchanged; on success the new user record is appended and exactly
six default accounts are created for the new user, each with balance 0
(server.py lines 154-202). -/
theorem C10_register_atomic (u : UserCreate) (hashFn : String → String)
    (uid : Nat) (accountIds : Nat → Nat) (now : Nat) (db : DB) :
    ((∃ w ∈ db.users, w.username = u.username ∨ w.email = u.email) →
        register_user u hashFn uid accountIds now db = (Except.error Err.conflict, db)) ∧
    (∀ r db', register_user u hashFn uid accountIds now db = (Except.ok r, db') →
        (∃ newUser : User, db'.users = db.users ++ [newUser] ∧ newUser.id = uid ∧
            newUser.username = u.username ∧ newUser.email = u.email) ∧
        db'.transactions = db.transactions ∧
        (∃ newAccounts : List Account, db'.accounts = db.accounts ++ newAccounts ∧
            newAccounts.length = 6 ∧
            ∀ a ∈ newAccounts, a.user_id = uid ∧ a.balance = 0)) := by
  constructor
  · rintro ⟨w, hw, hmatch⟩
    have hsome : (db.users.find?
        (fun x => x.username == u.username || x.email == u.email)).isSome := by
      rw [List.find?_isSome]
      exact ⟨w, hw, by simpa using hmatch⟩
    rcases hfind : db.users.find?
        (fun x => x.username == u.username || x.email == u.email) with _ | w2
    · rw [hfind] at hsome
      simp at hsome
    · simp [register_user, hfind]
  · intro r db' hok
    rcases hfind : db.users.find?
        (fun x => x.username == u.username || x.email == u.email) with _ | w2
    · simp only [register_user, hfind, Prod.mk.injEq, Except.ok.injEq] at hok
      obtain ⟨h1, h2⟩ := hok
      subst h2
      refine ⟨⟨_, rfl, rfl, rfl, rfl⟩, rfl, ⟨_, rfl, rfl, ?_⟩⟩
      intro a ha
      simp only [default_accounts, List.enum, List.enumFrom, List.map_cons,
        List.map_nil, List.mem_cons, List.not_mem_nil, or_false] at ha
      rcases ha with rfl | rfl | rfl | rfl | rfl | rfl <;> exact ⟨rfl, rfl⟩
    · simp [register_user, hfind] at hok

/-- Updating the balance under an account id not owned by user `B` leaves
`B`'s accounts untouched. -/
lemma filter_user_update_account {l : List Account} (account_id B : Nat) (v : ℚ)
    (h : ∀ a ∈ l, a.id = account_id → ¬ a.user_id = B) :
    (update_account_balance l account_id v).filter (fun a => a.user_id == B)
      = l.filter (fun a => a.user_id == B) := by
  induction l with
  | nil => rfl
  | cons hd t ih =>
    by_cases hh : hd.id = account_id
    · have hB := h hd (List.mem_cons_self _ _) hh
      rw [update_account_balance, if_pos hh, List.filter_cons, List.filter_cons,
        if_neg (by simp [hB]), if_neg (by simp [hB])]
    · have ih' := ih (fun a ha hid => h a (List.mem_cons_of_mem _ ha) hid)
      rw [update_account_balance, if_neg hh, List.filter_cons, List.filter_cons]
      by_cases hu : hd.user_id = B
      · rw [if_pos (by simp [hu]), if_pos (by simp [hu]), ih']
      · rw [if_neg (by simp [hu]), if_neg (by simp [hu]), ih']

/-- Removing the first transaction under an id not owned by user `B` leaves
`B`'s transactions untouched. -/
lemma filter_user_delete_first {l : List Transaction} (tid B : Nat)
    (h : ∀ x ∈ l, x.id = tid → ¬ x.user_id = B) :
    (delete_first_transaction l tid).filter (fun x => x.user_id == B)
      = l.filter (fun x => x.user_id == B) := by
  induction l with
  | nil => rfl
  | cons hd t ih =>
    by_cases hh : hd.id = tid
    · have hB := h hd (List.mem_cons_self _ _) hh
      rw [delete_first_transaction, if_pos hh, List.filter_cons, if_neg (by simp [hB])]
    · have ih' := ih (fun a ha hid => h a (List.mem_cons_of_mem _ ha) hid)
      rw [delete_first_transaction, if_neg hh, List.filter_cons, List.filter_cons]
      by_cases hu : hd.user_id = B
      · rw [if_pos (by simp [hu]), if_pos (by simp [hu]), ih']
      · rw [if_neg (by simp [hu]), if_neg (by simp [hu]), ih']

/-- Insertion used by the date sort introduces no new elements. -/
lemma mem_insert_by_date {x t : Transaction} {l : List Transaction}
    (h : x ∈ insert_by_date_desc t l) : x = t ∨ x ∈ l := by
  induction l with
  | nil => simpa [insert_by_date_desc] using h
  | cons hd tl ih =>
    rw [insert_by_date_desc] at h
    by_cases hc : hd.date < t.date
    · rw [if_pos hc] at h
      rcases List.mem_cons.mp h with rfl | h2
      · exact Or.inl rfl
      · exact Or.inr h2
    · rw [if_neg hc] at h
      rcases List.mem_cons.mp h with rfl | h2
      · exact Or.inr (List.mem_cons_self _ _)
      · rcases ih h2 with h3 | h3
        · exact Or.inl h3
        · exact Or.inr (List.mem_cons_of_mem _ h3)

/-- The date sort is a permutation-level operation: its members come from the
input list. -/
lemma mem_sort_by_date {x : Transaction} {l : List Transaction}
    (h : x ∈ sort_by_date_desc l) : x ∈ l := by
  induction l with
  | nil => simp [sort_by_date_desc] at h
  | cons hd t ih =>
    rw [sort_by_date_desc, List.foldr_cons] at h
    rcases mem_insert_by_date h with rfl | h2
    · exact List.mem_cons_self _ _
    · exact List.mem_cons_of_mem _ (ih h2)

/-- C8: operations invoked by user A neither read nor mutate user B's data:
posting against one of B's account ids and deleting one of B's transaction ids
fail with NotFound and leave the state unchanged; listing returns only A's
transactions; and any post or delete by A leaves B's accounts and transactions
exactly as they were (server.py lines 269-273, 293-295, 370-386). -/
theorem C8_ownership_isolation (A B : Nat) (hAB : ¬ A = B) (db : DB)
    (hNa : (db.accounts.map Account.id).Nodup)
    (hNt : (db.transactions.map Transaction.id).Nodup)
    (hWO : ∀ t ∈ db.transactions, ∀ a ∈ db.accounts,
        a.id = t.account_id → a.user_id = t.user_id) :
    (∀ td freshId now, (∀ a ∈ db.accounts, a.id = td.account_id → a.user_id = B) →
        create_transaction td A freshId now db = (Except.error Err.notFound, db)) ∧
    (∀ tid, (∀ t ∈ db.transactions, t.id = tid → t.user_id = B) →
        delete_transaction tid A db = (Except.error Err.notFound, db)) ∧
    (∀ limit offset account_id l,
        get_user_transactions limit offset account_id A db = Except.ok l →
        ∀ t ∈ l, t.user_id = A) ∧
    (∀ td freshId now,
        (create_transaction td A freshId now db).2.accounts.filter
            (fun a => a.user_id == B)
          = db.accounts.filter (fun a => a.user_id == B) ∧
        (create_transaction td A freshId now db).2.transactions.filter
            (fun t => t.user_id == B)
          = db.transactions.filter (fun t => t.user_id == B)) ∧
    (∀ tid,
        (delete_transaction tid A db).2.accounts.filter (fun a => a.user_id == B)
          = db.accounts.filter (fun a => a.user_id == B) ∧
        (delete_transaction tid A db).2.transactions.filter (fun t => t.user_id == B)
          = db.transactions.filter (fun t => t.user_id == B)) := by
  refine ⟨?_, ?_, ?_, ?_, ?_⟩
  · -- post with an account id that resolves only to B-owned accounts
    intro td freshId now h
    have hnone : db.accounts.find?
        (fun a => a.id == td.account_id && a.user_id == A) = none := by
      rw [List.find?_eq_none]
      intro a ha
      simp only [Bool.and_eq_true, beq_iff_eq, not_and]
      intro hid hA
      exact hAB (hA ▸ (h a ha hid))
    simp [create_transaction, hnone]
  · -- delete with a transaction id that resolves only to B-owned transactions
    intro tid h
    have hnone : db.transactions.find?
        (fun t => t.id == tid && t.user_id == A) = none := by
      rw [List.find?_eq_none]
      intro t ht
      simp only [Bool.and_eq_true, beq_iff_eq, not_and]
      intro hid hA
      exact hAB (hA ▸ (h t ht hid))
    simp [delete_transaction, hnone]
  · -- listing is scoped to A
    intro limit offset account_id l hok t ht
    by_cases h100 : 100 < limit
    · simp [get_user_transactions, h100] at hok
    · by_cases hoff : offset < 0
      · simp [get_user_transactions, h100, hoff] at hok
      · simp only [get_user_transactions, if_neg h100, if_neg hoff,
          Except.ok.injEq] at hok
        subst hok
        have h3 := mem_sort_by_date (List.mem_of_mem_drop (List.mem_of_mem_take ht))
        rcases account_id with _ | aid
        · have := (List.mem_filter.mp h3).2
          simpa using this
        · have := (List.mem_filter.mp (List.mem_filter.mp h3).1).2
          simpa using this
  · -- frame: posts by A do not change B's data
    intro td freshId now
    rcases hfa : db.accounts.find?
        (fun a => a.id == td.account_id && a.user_id == A) with _ | acc
    · constructor <;> simp [create_transaction, hfa]
    · have hmem := List.mem_of_find?_eq_some hfa
      have hp := List.find?_some hfa
      simp only [Bool.and_eq_true, beq_iff_eq] at hp
      constructor
      · simp only [create_transaction, hfa]
        apply filter_user_update_account
        intro a ha hid
        have ha' : a = acc := by
          refine List.inj_on_of_nodup_map hNa ha hmem ?_
          rw [hid, hp.1]
        rw [ha', hp.2]
        exact hAB
      · simp only [create_transaction, hfa, List.filter_append]
        have hB : ((A : Nat) == B) = false := by simp [hAB]
        simp [hB]
  · -- frame: deletes by A do not change B's data
    intro tid
    rcases hft : db.transactions.find?
        (fun x => x.id == tid && x.user_id == A) with _ | t
    · constructor <;> simp [delete_transaction, hft]
    · have hmemt := List.mem_of_find?_eq_some hft
      have hpt := List.find?_some hft
      simp only [Bool.and_eq_true, beq_iff_eq] at hpt
      have htB : ∀ x ∈ db.transactions, x.id = tid → ¬ x.user_id = B := by
        intro x hx hxid
        have hx' : x = t := by
          refine List.inj_on_of_nodup_map hNt hx hmemt ?_
          rw [hxid, hpt.1]
        rw [hx', hpt.2]
        exact hAB
      constructor
      · rcases hfa : db.accounts.find? (fun a => a.id == t.account_id) with _ | acc
        · simp [delete_transaction, hft, hfa]
        · have hmema := List.mem_of_find?_eq_some hfa
          have hpa : acc.id = t.account_id := by
            have := List.find?_some hfa
            simpa using this
          have hAcc : acc.user_id = t.user_id := hWO t hmemt acc hmema hpa
          simp only [delete_transaction, hft, hfa]
          apply filter_user_update_account
          intro a ha hid
          have ha' : a = acc := by
            refine List.inj_on_of_nodup_map hNa ha hmema ?_
            rw [hid, hpa]
          rw [ha', hAcc, hpt.2]
          exact hAB
      · rcases hfa : db.accounts.find? (fun a => a.id == t.account_id) with _ | acc <;>
          simp only [delete_transaction, hft, hfa] <;>
          exact filter_user_delete_first _ _ htB

/-- C1 witness: posting 250000 to the Kas account of user 1 leaves it with
balance 0 + 250000. -/
theorem C1_witness :
    (sampleDb.accounts.map Account.id).Nodup ∧
    sampleDb.accounts.find?
        (fun a => a.id == sampleCreate.account_id && a.user_id == 1) = some kasAccount ∧
    ((create_transaction sampleCreate 1 300 9 sampleDb).2.accounts.find?
        (fun a => a.id == sampleCreate.account_id)
      = some { kasAccount with balance := kasAccount.balance + sampleCreate.amount }) :=
  ⟨by decide, by rfl,
    (C1_post_additive_all_categories sampleDb sampleCreate 1 300 9 kasAccount
      (by decide) (by rfl)).2⟩

/-- C5 witness: user 2 posting against user 1's account id 11 gets NotFound and
the state does not change. -/
theorem C5_witness :
    (∀ a ∈ sampleDb.accounts, a.id = sampleCreate.account_id → ¬ a.user_id = 2) ∧
    create_transaction sampleCreate 2 301 9 sampleDb
      = (Except.error Err.notFound, sampleDb) :=
  ⟨by decide, C5_post_not_found sampleDb sampleCreate 2 301 9 (by decide)⟩

/-- C6 witness: user 1 deleting transaction 101 succeeds and sets the Kas
balance to 0 - 250000. -/
theorem C6_witness :
    (sampleDb.accounts.map Account.id).Nodup ∧
    (sampleDb.transactions.map Transaction.id).Nodup ∧
    sampleDb.transactions.find? (fun x => x.id == 101 && x.user_id == 1)
      = some sampleTxn ∧
    sampleDb.accounts.find? (fun a => a.id == sampleTxn.account_id) = some kasAccount ∧
    (delete_transaction 101 1 sampleDb).1 = Except.ok () ∧
    ((delete_transaction 101 1 sampleDb).2.accounts.find?
        (fun a => a.id == sampleTxn.account_id)
      = some { kasAccount with balance := kasAccount.balance - sampleTxn.amount }) ∧
    delete_transaction 101 1 (delete_transaction 101 1 sampleDb).2
      = (Except.error Err.notFound, (delete_transaction 101 1 sampleDb).2) :=
  ⟨by decide, by decide, by rfl, by rfl,
    (C6_delete_semantics sampleDb 101 1 sampleTxn (by decide) (by decide) (by rfl)).1,
    (C6_delete_semantics sampleDb 101 1 sampleTxn (by decide) (by decide)
      (by rfl)).2.2.1 kasAccount (by rfl),
    (C6_delete_semantics sampleDb 101 1 sampleTxn (by decide) (by decide)
      (by rfl)).2.2.2.2⟩

/-- C7 witness: limit 101 and offset -1 are rejected as validation errors,
while the default limit 50 with offset 0 succeeds with at most 50 rows. -/
theorem C7_witness :
    get_user_transactions 101 0 none 1 sampleDb = Except.error Err.validationError ∧
    get_user_transactions 50 (-1) none 1 sampleDb = Except.error Err.validationError ∧
    ∃ l, get_user_transactions 50 0 none 1 sampleDb = Except.ok l ∧
      l.length ≤ (50 : Int).toNat :=
  ⟨(C7_pagination_validation 101 0 none 1 sampleDb).1 (Or.inl (by decide)),
   (C7_pagination_validation 50 (-1) none 1 sampleDb).1 (Or.inr (by decide)),
   (C7_pagination_validation 50 0 none 1 sampleDb).2.1 (by decide) (by decide)⟩

/-- C8 witness: on the two-user sample state, user 1 cannot post against user
2's account 21 nor delete user 2's transaction 201, and user 1's delete of its
own transaction 101 leaves user 2's accounts untouched. -/
theorem C8_witness :
    (¬ (1 : Nat) = 2) ∧
    (sampleDb.accounts.map Account.id).Nodup ∧
    (sampleDb.transactions.map Transaction.id).Nodup ∧
    (∀ t ∈ sampleDb.transactions, ∀ a ∈ sampleDb.accounts,
        a.id = t.account_id → a.user_id = t.user_id) ∧
    create_transaction sampleCreateB 1 302 9 sampleDb
      = (Except.error Err.notFound, sampleDb) ∧
    delete_transaction 201 1 sampleDb = (Except.error Err.notFound, sampleDb) ∧
    ((delete_transaction 101 1 sampleDb).2.accounts.filter (fun a => a.user_id == 2)
      = sampleDb.accounts.filter (fun a => a.user_id == 2)) :=
  ⟨by decide, by decide, by decide, by decide,
    (C8_ownership_isolation 1 2 (by decide) sampleDb (by decide) (by decide)
      (by decide)).1 sampleCreateB 302 9 (by decide),
    (C8_ownership_isolation 1 2 (by decide) sampleDb (by decide) (by decide)
      (by decide)).2.1 201 (by decide),
    ((C8_ownership_isolation 1 2 (by decide) sampleDb (by decide) (by decide)
      (by decide)).2.2.2.2 101).1⟩

/-- C10 witness: registering a second "ahmad" is rejected with Conflict and
changes nothing, while registering "budi" appends the user record and exactly
six zero-balance default accounts. -/
theorem C10_witness :
    (∃ w ∈ sampleDb.users,
        w.username = sampleRegister.username ∨ w.email = sampleRegister.email) ∧
    register_user sampleRegister (fun s => s) 3 idFun 9 sampleDb
      = (Except.error Err.conflict, sampleDb) ∧
    ((∃ newUser : User,
        (register_user freshRegister (fun s => s) 3 idFun 9 sampleDb).2.users
          = sampleDb.users ++ [newUser] ∧ newUser.id = 3 ∧
        newUser.username = freshRegister.username ∧
        newUser.email = freshRegister.email) ∧
      (register_user freshRegister (fun s => s) 3 idFun 9 sampleDb).2.transactions
        = sampleDb.transactions ∧
      (∃ newAccounts : List Account,
        (register_user freshRegister (fun s => s) 3 idFun 9 sampleDb).2.accounts
          = sampleDb.accounts ++ newAccounts ∧ newAccounts.length = 6 ∧
        ∀ a ∈ newAccounts, a.user_id = 3 ∧ a.balance = 0)) :=
  ⟨by decide,
    (C10_register_atomic sampleRegister (fun s => s) 3 idFun 9 sampleDb).1 (by decide),
    (C10_register_atomic freshRegister (fun s => s) 3 idFun 9 sampleDb).2 3
      (register_user freshRegister (fun s => s) 3 idFun 9 sampleDb).2 rfl⟩

end Keuangan
